import Mathlib

/-!
Verification development for the `neris-api-client` authentication and
request-dispatch layer (`src/neris_api_client/client.py` and
`src/neris_api_client/config.py`).

The Python source is shallowly embedded: `datetime` instants become `Int`
(seconds), the identity provider and the terminal are oracles (a list of
responses to successive POSTs to the token endpoint, and a list of strings
read from stdin), and every Python-level runtime failure (AssertionError,
UnboundLocalError, KeyError, JSONDecodeError) is an explicit `PyError`
value of an `Except`/outcome type.
-/

namespace NerisApiClient

/-! ## config.py -/

/-- `GrantType(StrEnum)` from config.py: exactly two members,
`client_credentials` and `password`. -/
inductive GrantType where
  | client_credentials
  | password
deriving DecidableEq

/-- `TokenSet` dataclass from config.py: `access_token`, `refresh_token`,
`expires_at` (a `datetime`, embedded as an `Int` timestamp in seconds). -/
structure TokenSet where
  access_token : String
  refresh_token : String
  expires_at : Int
deriving DecidableEq

/-- `datetime.min` (0001-01-01T00:00:00) as a Unix timestamp in seconds;
used as the sentinel expiry of the class-level default `TokenSet`. -/
def datetimeMin : Int := -62135596800

/-- `Config(BaseModel)` from config.py. `grant_type` is the only required
field; the secrets are all `Optional[str]` defaulting to `None`. -/
structure Config where
  base_url : String
  debug : Bool
  username : Option String
  password : Option String
  client_id : Option String
  client_secret : Option String
  refresh_token : Option String
  grant_type : GrantType
deriving DecidableEq

/-! ## Python runtime failures -/

/-- Runtime errors the embedded client code can raise:
`assertionError` for the `assert` statements in `__init__`,
`nameError` for a reference to an unbound name (Python
`NameError`/`UnboundLocalError`), `keyError` for a missing dict key, and
`jsonDecodeError` for `res.json()` on a non-JSON body. -/
inductive PyError where
  | assertionError
  | nameError (name : String)
  | keyError (key : String)
  | jsonDecodeError
deriving DecidableEq

/-! ## `_NerisApiClient.__init__` (client.py lines 42-56) -/

/-- `__init__` validates the config with `assert` statements, in source
order: for `client_credentials` it asserts `client_id` then
`client_secret` are not `None`; for `password` it asserts `username` then
`password`. A failing assert raises at construction, so no client value
exists and no first call can happen. This construction-time failure is the
spec's `ConfigurationError` error kind. -/
def clientInit (config : Config) : Except PyError Config :=
  match config.grant_type with
  | .client_credentials =>
    match config.client_id, config.client_secret with
    | some _, some _ => .ok config
    | none, _ => .error .assertionError
    | some _, none => .error .assertionError
  | .password =>
    match config.username, config.password with
    | some _, some _ => .ok config
    | none, _ => .error .assertionError
    | some _, none => .error .assertionError

/-! ## base64 (client.py line 76: `base64.b64encode(...)`) -/

/-- The standard base64 alphabet, indexed 0-63. -/
def b64Char (n : Nat) : Char :=
  "ABCDEFGHIJKLMNOPQRSTUVWXYZabcdefghijklmnopqrstuvwxyz0123456789+/".toList.getD n '='

/-- Standard base64 of a byte sequence (values 0-255), three bytes per
four output characters, with `=` padding. -/
def b64Chunks : List Nat → String
  | [] => ""
  | [b1] =>
    String.mk [b64Char (b1 / 4), b64Char (b1 % 4 * 16), '=', '=']
  | [b1, b2] =>
    String.mk [b64Char (b1 / 4), b64Char (b1 % 4 * 16 + b2 / 16), b64Char (b2 % 16 * 4), '=']
  | b1 :: b2 :: b3 :: rest =>
    String.mk [b64Char (b1 / 4), b64Char (b1 % 4 * 16 + b2 / 16),
               b64Char (b2 % 16 * 4 + b3 / 64), b64Char (b3 % 64)] ++ b64Chunks rest

/-- UTF-8 encoding of one character (`str.encode("utf-8")`), as byte
values 0-255. -/
def utf8Bytes (c : Char) : List Nat :=
  let n := c.toNat
  if n < 128 then [n]
  else if n < 2048 then [192 + n / 64, 128 + n % 64]
  else if n < 65536 then [224 + n / 4096, 128 + n / 64 % 64, 128 + n % 64]
  else [240 + n / 262144, 128 + n / 4096 % 64, 128 + n / 64 % 64, 128 + n % 64]

/-- `base64.b64encode(s.encode("utf-8")).decode("utf-8")`. -/
def base64Encode (s : String) : String :=
  b64Chunks (s.toList.map utf8Bytes).flatten

/-- Interpolation of an `Optional[str]` into an f-string: Python renders
`None` as the text "None". Construction guarantees the relevant secrets
are present, so the `none` case is unreachable for validated clients. -/
def fstr : Option String → String
  | some s => s
  | none => "None"

/-! ## Requests to the token endpoint -/

/-- One form-encoded POST to `{base_url}/token`: `basic_auth` is the value
of the `Authorization` header when one is sent (the `Content-Type` header,
identical on every request, is not modelled), `body` the `data` dict in
source order. -/
structure TokenRequest where
  url : String
  basic_auth : Option String
  body : List (String × String)
deriving DecidableEq

/-- `f"{self.config.base_url}/token"` (line 60). -/
def tokenUrl (cfg : Config) : String := cfg.base_url ++ "/token"

/-- Initial password-grant acquisition request (lines 64-73): no
Authorization header, body `grant_type=password` plus username/password. -/
def initialPasswordReq (cfg : Config) : TokenRequest :=
  ⟨tokenUrl cfg, none,
   [("grant_type", "password"), ("username", fstr cfg.username),
    ("password", fstr cfg.password)]⟩

/-- Initial client-credentials acquisition request (lines 75-82):
`Authorization: Basic base64(client_id:client_secret)`, body carries only
the grant type. -/
def initialCcReq (cfg : Config) : TokenRequest :=
  ⟨tokenUrl cfg,
   some ("Basic " ++ base64Encode (fstr cfg.client_id ++ ":" ++ fstr cfg.client_secret)),
   [("grant_type", "client_credentials")]⟩

/-- Password-grant refresh request (lines 86-95): no Authorization header,
body `grant_type=refresh_token` plus the stored refresh token. -/
def refreshPasswordReq (cfg : Config) (rt : String) : TokenRequest :=
  ⟨tokenUrl cfg, none, [("grant_type", "refresh_token"), ("refresh_token", rt)]⟩

/-- MFA challenge resubmission (lines 142-151): no Authorization header,
body `grant_type=<challenge_name>`, username, the provider's session
token, and the code read from the terminal under the challenge name. -/
def mfaReq (cfg : Config) (ch sess code : String) : TokenRequest :=
  ⟨tokenUrl cfg, none,
   [("grant_type", ch), ("username", fstr cfg.username), ("session", sess), (ch, code)]⟩

/-! ## Responses from the token endpoint -/

/-- A provider response as `_update_auth` consumes it: HTTP status,
whether `res.json()` parses (`json_ok`), and the JSON fields the code
looks up (`None` meaning the key is absent, which raises `KeyError`). -/
structure TokenResponse where
  status : Nat
  json_ok : Bool
  access_token : Option String
  refresh_token : Option String
  expires_in : Option Int
  challenge_name : Option String
  session : Option String
deriving DecidableEq

/-- `requests.Response.__bool__` is `self.ok`: true unless
`raise_for_status()` would raise, i.e. unless `400 <= status < 600`. -/
abbrev responseOk (s : Nat) : Prop := s < 400 ∨ 600 ≤ s

/-! ## `_NerisApiClient._update_auth` (client.py lines 58-151) -/

/-- How one run of `_update_auth` ends. `returned` is a normal Python
return (with or without a token update — in particular the silent return
at `if not res: return`). `infiniteLoop` marks the `while True` loop
re-examining an unchanged response whose status is neither 200 nor 202,
which provably never exits. `blockedOnInput` and `providerSilent` are
model artifacts for an exhausted stdin/provider oracle (Python would block
on `input()` or on the socket). -/
inductive AuthOutcome where
  | returned
  | pyError (e : PyError)
  | infiniteLoop
  | blockedOnInput
  | providerSilent
deriving DecidableEq

/-- Result of a run of `_update_auth`: the outcome, the final `tokens`
field, the POSTs issued to the token endpoint in order, and how many
times `input()` was called. -/
structure AuthResult where
  outcome : AuthOutcome
  tokens : TokenSet
  requests : List TokenRequest
  stdinReads : Nat
deriving DecidableEq

/-- The `while True` response loop of `_update_auth` (lines 110-151).
Each iteration parses `res.json()`; on 200 it builds a fresh `TokenSet`
from `access_token`, `refresh_token` and `expires_in` (key lookups in
source order, `expires_at = now + expires_in`) and breaks; on 202 it
reads the MFA code from the terminal (`input`, line 140 — the prompt
evaluates `got["challenge_name"]` first) and resubmits (lines 142-151);
any other status loops forever on the same response. -/
def tokenLoop (cfg : Config) (now : Int) (cur : TokenSet) :
    TokenResponse → List TokenResponse → List String → AuthResult
  | res, provider, stdin =>
    if res.json_ok = false then ⟨.pyError .jsonDecodeError, cur, [], 0⟩
    else if res.status = 200 then
      match res.access_token, res.refresh_token, res.expires_in with
      | none, _, _ => ⟨.pyError (.keyError "access_token"), cur, [], 0⟩
      | some _, none, _ => ⟨.pyError (.keyError "refresh_token"), cur, [], 0⟩
      | some _, some _, none => ⟨.pyError (.keyError "expires_in"), cur, [], 0⟩
      | some a, some rt, some e => ⟨.returned, ⟨a, rt, now + e⟩, [], 0⟩
    else if res.status = 202 then
      match res.challenge_name with
      | none => ⟨.pyError (.keyError "challenge_name"), cur, [], 0⟩
      | some ch =>
        match stdin with
        | [] => ⟨.blockedOnInput, cur, [], 0⟩
        | code :: stdin' =>
          match res.session with
          | none => ⟨.pyError (.keyError "session"), cur, [], 1⟩
          | some sess =>
            match provider with
            | [] => ⟨.providerSilent, cur, [mfaReq cfg ch sess code], 1⟩
            | res' :: provider' =>
              let r := tokenLoop cfg now cur res' provider' stdin'
              ⟨r.outcome, r.tokens, mfaReq cfg ch sess code :: r.requests, r.stdinReads + 1⟩
    else ⟨.infiniteLoop, cur, [], 0⟩

/-- Issue one POST to the token endpoint and continue as `_update_auth`
does after its two dispatch branches: `if not res: return` (line 107)
makes a response with an error status (400-599) return silently with the
tokens unchanged; otherwise the response enters the `while True` loop. -/
def issueAndLoop (cfg : Config) (now : Int) (cur : TokenSet) (req : TokenRequest)
    (provider : List TokenResponse) (stdin : List String) : AuthResult :=
  match provider with
  | [] => ⟨.providerSilent, cur, [req], 0⟩
  | res :: provider' =>
    if responseOk res.status then
      let r := tokenLoop cfg now cur res provider' stdin
      ⟨r.outcome, r.tokens, req :: r.requests, r.stdinReads⟩
    else
      ⟨.returned, cur, [req], 0⟩

/-- `_update_auth` (lines 58-151). First branch (line 62): token expired
(`expires_at <= now`) and falsy (empty) `refresh_token` — full
acquisition, dispatched on the grant type. Second branch (line 84): token
expired with a refresh token — refresh request; the `client_credentials`
arm (lines 98-105) references `client_creds`, a local bound only in the
first branch, so it raises `UnboundLocalError` before any request is
issued. Otherwise `res` stays `None` and the function returns at
`if not res: return`. -/
def updateAuth (cfg : Config) (tokens : TokenSet) (now : Int)
    (provider : List TokenResponse) (stdin : List String) : AuthResult :=
  if tokens.expires_at ≤ now ∧ tokens.refresh_token = "" then
    match cfg.grant_type with
    | .password => issueAndLoop cfg now tokens (initialPasswordReq cfg) provider stdin
    | .client_credentials => issueAndLoop cfg now tokens (initialCcReq cfg) provider stdin
  else if tokens.expires_at ≤ now then
    match cfg.grant_type with
    | .password =>
      issueAndLoop cfg now tokens (refreshPasswordReq cfg tokens.refresh_token) provider stdin
    | .client_credentials => ⟨.pyError (.nameError "client_creds"), tokens, [], 0⟩
  else ⟨.returned, tokens, [], 0⟩

/-! ## `_NerisApiClient._call` (client.py lines 153-211) -/

/-- A resource-API response as `_call` consumes it: HTTP status, the
parsed JSON value when the body parses (`json`, represented abstractly as
a string), and the raw body text. -/
structure ApiResponse where
  status : Nat
  json : Option String
  text : String
deriving DecidableEq

/-- What a `_call` result carries: a parsed JSON value, or the raw body
text when the body is not valid JSON. -/
inductive BodyVal where
  | jsonVal (v : String)
  | textVal (s : String)
deriving DecidableEq

/-- `res.json()` with fallback to `res.text` on `JSONDecodeError`
(lines 198-201 and 206-209). -/
def parseBody (r : ApiResponse) : BodyVal :=
  match r.json with
  | some v => .jsonVal v
  | none => .textVal r.text

/-- The value `_call` returns once a resource-API response exists. For a
4xx/5xx response `raise_for_status()` raises `HTTPError`; the handler
attaches the parsed-or-raw error body to the exception, prints it, and
returns the response object itself (status and body inspectable by the
caller) — the call never aborts. Any other status returns the parsed JSON
body, or the raw text when the body is not JSON. -/
inductive CallResult where
  | value (v : BodyVal)
  | failureResponse (status : Nat) (text : String) (errInfo : BodyVal)
deriving DecidableEq

/-- Response classification of `_call` (lines 195-211):
`raise_for_status` raises exactly when `400 <= status < 600`. -/
def classifyResponse (r : ApiResponse) : CallResult :=
  if 400 ≤ r.status ∧ r.status < 600 then
    .failureResponse r.status r.text (parseBody r)
  else
    .value (parseBody r)

/-- The inspectable body a `CallResult` carries. -/
def carriedBody : CallResult → BodyVal
  | .value v => v
  | .failureResponse _ _ v => v

/-- One invocation of `_call` (line 161 onwards): run `_update_auth`,
and — whenever it returns normally (with or without a token update) —
dispatch the resource request and classify its response. Any Python-level
error or hang inside `_update_auth` means the resource request is never
made (second component `none`). -/
def callModel (cfg : Config) (tokens : TokenSet) (now : Int)
    (provider : List TokenResponse) (stdin : List String)
    (apiRes : ApiResponse) : AuthResult × Option CallResult :=
  let a := updateAuth cfg tokens now provider stdin
  match a.outcome with
  | .returned => (a, some (classifyResponse apiRes))
  | _ => (a, none)

/-! ## Class-level attribute sharing (client.py lines 37-40, 130, 162)

`_NerisApiClient` declares `tokens` and `_session` with class-level
initializers: one `TokenSet` sentinel and one `requests.Session` object
are created when the class is defined and are reachable from every
instance. The only assignment to `tokens` is `self.tokens = TokenSet(...)`
(line 130), which creates an instance-level attribute; `_session` is never
assigned anywhere, so `self._session` always resolves to the single
class-level `Session` object, and
`self._session.headers.update({"Authorization": ...})` (line 162) mutates
that shared object in place. -/

/-- The mutable shared `requests.Session`: its persistent header dict. -/
structure Session where
  headers : List (String × String)
deriving DecidableEq

/-- State held on the class object itself: the single shared `Session`
and the class-level default `TokenSet`. -/
structure ClassState where
  session : Session
  tokensDefault : TokenSet
deriving DecidableEq

/-- Per-instance state: Python instance-attribute lookup for `tokens`
falls back to the class default until `self.tokens = ...` runs. -/
structure InstanceState where
  tokensOverride : Option TokenSet
deriving DecidableEq

/-- Attribute lookup `self.tokens`. -/
def readTokens (cls : ClassState) (inst : InstanceState) : TokenSet :=
  inst.tokensOverride.getD cls.tokensDefault

/-- `self.tokens = TokenSet(...)` (line 130) creates an instance
attribute and leaves the class default untouched. -/
def setTokens (_inst : InstanceState) (ts : TokenSet) : InstanceState :=
  ⟨some ts⟩

/-- Attribute lookup `self._session`: no code ever assigns `_session`, so
every instance resolves it to the class-level `Session` object. -/
def sessionOf (cls : ClassState) (_inst : InstanceState) : Session :=
  cls.session

/-- `dict.update` with one key: replace any existing entry for `k`. -/
def headersUpdate (hs : List (String × String)) (k v : String) :
    List (String × String) :=
  (k, v) :: hs.filter (fun p => p.1 ≠ k)

/-- Line 162: `self._session.headers.update({"Authorization": f"Bearer
{self.tokens.access_token}"})` — mutates the shared session in place
using the attaching instance's token view. -/
def attachAuth (cls : ClassState) (inst : InstanceState) : ClassState :=
  ⟨⟨headersUpdate (sessionOf cls inst).headers "Authorization"
      ("Bearer " ++ (readTokens cls inst).access_token)⟩,
   cls.tokensDefault⟩

/-! ## `NerisApiClient.patch_unit` (client.py lines 283-295) -/

/-- One piece of a Python f-string: a literal or an interpolated name. -/
inductive FPart where
  | lit (s : String)
  | var (x : String)
deriving DecidableEq

/-- Left-to-right evaluation of an f-string against the names in scope: a
reference to an unbound name raises `NameError` at the first offending
interpolation. -/
def evalFString (scope : List (String × String)) : List FPart → Except PyError String
  | [] => .ok ""
  | .lit s :: ps => (evalFString scope ps).map (fun t => s ++ t)
  | .var x :: ps =>
    match List.lookup x scope with
    | none => .error (.nameError x)
    | some v => (evalFString scope ps).map (fun t => v ++ t)

/-- `patch_unit` (lines 283-295): its URL argument is the f-string
`"/entity/{neris_id}/station/{neris_id_station}/unit/{neris_id_unit}"`.
The names in scope are the parameters `neris_id_entity`,
`neris_id_station`, `neris_id_unit` and `body` (plus `self`, which the
template never references); `neris_id` is bound neither there nor at
module level. Python evaluates this argument before `_call` is entered. -/
def patch_unit (neris_id_entity neris_id_station neris_id_unit body : String) :
    Except PyError String :=
  evalFString
    [("neris_id_entity", neris_id_entity), ("neris_id_station", neris_id_station),
     ("neris_id_unit", neris_id_unit), ("body", body)]
    [.lit "/entity/", .var "neris_id", .lit "/station/", .var "neris_id_station",
     .lit "/unit/", .var "neris_id_unit"]

/-- A resource-API method reaches `_call` — and hence can issue an HTTP
request — only if its URL argument evaluated; an argument-evaluation
error means zero requests. -/
def methodRequests (url : Except PyError String) : List String :=
  match url with
  | .error _ => []
  | .ok u => [u]

/-! ## Concrete fixtures used by witnesses and counterexamples -/

/-- A validated password-grant configuration. -/
def pwCfg : Config :=
  ⟨"https://api.neris.fsri.org/v1", false, some "u", some "p", none, none, none, .password⟩

/-- A validated client-credentials configuration. -/
def ccCfg : Config :=
  ⟨"https://api.neris.fsri.org/v1", false, none, none, some "i", some "s", none,
   .client_credentials⟩

/-- An expired token set holding a non-empty refresh token. -/
def staleTokens : TokenSet := ⟨"AT0", "RT0", 0⟩

/-- The class-level sentinel token set of line 39. -/
def sentinelTokens : TokenSet := ⟨"", "", datetimeMin⟩

/-- A provider rejection of a refresh request. -/
def resp400 : TokenResponse := ⟨400, true, none, none, none, none, none⟩

/-- A successful token response with all three fields. -/
def resp200 : TokenResponse := ⟨200, true, some "AT1", some "RT1", some 3600, none, none⟩

/-- A 200 token response that does not rotate (return) a refresh token. -/
def resp200NoRT : TokenResponse := ⟨200, true, some "AT1", none, some 3600, none, none⟩

/-- An accepted-challenge-required (202) response. -/
def resp202 : TokenResponse := ⟨202, true, none, none, none, some "SMS_MFA", some "sess1"⟩

/-- A client-credentials config missing its `client_secret`. -/
def badCfg : Config := ⟨"u", false, none, none, some "i", none, none, .client_credentials⟩

/-- A class object as created at class-definition time: one fresh session,
the sentinel default token set. -/
def freshClassState : ClassState := ⟨⟨[]⟩, sentinelTokens⟩

/-- An instance that has completed a negotiation (its `self.tokens`
assignment ran). -/
def exInstA : InstanceState := ⟨some ⟨"AT_A", "RT_A", 99⟩⟩

/-- A freshly constructed instance (no instance-level `tokens`). -/
def exInstB : InstanceState := ⟨none⟩

/-! ## Branch characterizations of `_update_auth` -/

/-- A token whose expiry is still in the future leaves `res = None`, so
`_update_auth` returns at `if not res` with no request and no change. -/
theorem updateAuth_fresh (cfg : Config) (tokens : TokenSet) (now : Int)
    (provider : List TokenResponse) (stdin : List String) (h : now < tokens.expires_at) :
    updateAuth cfg tokens now provider stdin = ⟨.returned, tokens, [], 0⟩ := by
  have h1 : ¬ tokens.expires_at ≤ now := not_le.mpr h
  unfold updateAuth
  rw [if_neg (fun hc => h1 hc.1), if_neg h1]

/-- Expired token, empty refresh token, password grant: initial password
acquisition. -/
theorem updateAuth_initial_pw (cfg : Config) (tokens : TokenSet) (now : Int)
    (provider : List TokenResponse) (stdin : List String)
    (hexp : tokens.expires_at ≤ now) (hrt : tokens.refresh_token = "")
    (hg : cfg.grant_type = .password) :
    updateAuth cfg tokens now provider stdin =
      issueAndLoop cfg now tokens (initialPasswordReq cfg) provider stdin := by
  unfold updateAuth
  rw [if_pos ⟨hexp, hrt⟩, hg]

/-- Expired token, empty refresh token, client-credentials grant: initial
Basic-auth acquisition. -/
theorem updateAuth_initial_cc (cfg : Config) (tokens : TokenSet) (now : Int)
    (provider : List TokenResponse) (stdin : List String)
    (hexp : tokens.expires_at ≤ now) (hrt : tokens.refresh_token = "")
    (hg : cfg.grant_type = .client_credentials) :
    updateAuth cfg tokens now provider stdin =
      issueAndLoop cfg now tokens (initialCcReq cfg) provider stdin := by
  unfold updateAuth
  rw [if_pos ⟨hexp, hrt⟩, hg]

/-- Expired token with a refresh token, password grant: one refresh
request. -/
theorem updateAuth_refresh_pw (cfg : Config) (tokens : TokenSet) (now : Int)
    (provider : List TokenResponse) (stdin : List String)
    (hexp : tokens.expires_at ≤ now) (hrt : tokens.refresh_token ≠ "")
    (hg : cfg.grant_type = .password) :
    updateAuth cfg tokens now provider stdin =
      issueAndLoop cfg now tokens (refreshPasswordReq cfg tokens.refresh_token) provider stdin := by
  unfold updateAuth
  rw [if_neg (fun hc => hrt hc.2), if_pos hexp, hg]

/-- Expired token with a refresh token, client-credentials grant: the
branch references the unbound local `client_creds` and raises before any
request. -/
theorem updateAuth_refresh_cc (cfg : Config) (tokens : TokenSet) (now : Int)
    (provider : List TokenResponse) (stdin : List String)
    (hexp : tokens.expires_at ≤ now) (hrt : tokens.refresh_token ≠ "")
    (hg : cfg.grant_type = .client_credentials) :
    updateAuth cfg tokens now provider stdin =
      ⟨.pyError (.nameError "client_creds"), tokens, [], 0⟩ := by
  unfold updateAuth
  rw [if_neg (fun hc => hrt hc.2), if_pos hexp, hg]

/-- A 4xx/5xx provider response is falsy: `if not res: return` returns
silently with the tokens unchanged. -/
theorem issueAndLoop_badStatus (cfg : Config) (now : Int) (cur : TokenSet)
    (req : TokenRequest) (res : TokenResponse) (provider : List TokenResponse)
    (stdin : List String) (h : ¬ responseOk res.status) :
    issueAndLoop cfg now cur req (res :: provider) stdin = ⟨.returned, cur, [req], 0⟩ := by
  simp only [issueAndLoop]
  rw [if_neg h]

/-- A truthy provider response enters the `while True` loop, the issued
request prepended to whatever the loop does. -/
theorem issueAndLoop_okStatus (cfg : Config) (now : Int) (cur : TokenSet)
    (req : TokenRequest) (res : TokenResponse) (provider : List TokenResponse)
    (stdin : List String) (h : responseOk res.status) :
    issueAndLoop cfg now cur req (res :: provider) stdin =
      ⟨(tokenLoop cfg now cur res provider stdin).outcome,
       (tokenLoop cfg now cur res provider stdin).tokens,
       req :: (tokenLoop cfg now cur res provider stdin).requests,
       (tokenLoop cfg now cur res provider stdin).stdinReads⟩ := by
  simp only [issueAndLoop]
  rw [if_pos h]

/-- Whatever the provider answers, the first request in a dispatch
branch's trace is that branch's own request. -/
theorem issueAndLoop_head (cfg : Config) (now : Int) (cur : TokenSet)
    (req : TokenRequest) (provider : List TokenResponse) (stdin : List String) :
    (issueAndLoop cfg now cur req provider stdin).requests.head? = some req := by
  cases provider with
  | nil => rfl
  | cons r rest =>
    by_cases hok : responseOk r.status
    · rw [issueAndLoop_okStatus cfg now cur req r rest stdin hok]
      rfl
    · rw [issueAndLoop_badStatus cfg now cur req r rest stdin hok]
      rfl

/-- A 200 response carrying all three fields replaces the token set
wholesale with `expires_at = now + expires_in`. -/
theorem tokenLoop_success (cfg : Config) (now : Int) (cur : TokenSet)
    (res : TokenResponse) (provider : List TokenResponse) (stdin : List String)
    (a rt : String) (e : Int) (hj : res.json_ok = true) (hs : res.status = 200)
    (ha : res.access_token = some a) (hr : res.refresh_token = some rt)
    (he : res.expires_in = some e) :
    tokenLoop cfg now cur res provider stdin = ⟨.returned, ⟨a, rt, now + e⟩, [], 0⟩ := by
  unfold tokenLoop
  rw [hj, hs]
  simp [ha, hr, he]

/-- A 200 response lacking the `refresh_token` key raises `KeyError`
before any token is stored. -/
theorem tokenLoop_missing_refresh (cfg : Config) (now : Int) (cur : TokenSet)
    (res : TokenResponse) (provider : List TokenResponse) (stdin : List String)
    (a : String) (hj : res.json_ok = true) (hs : res.status = 200)
    (ha : res.access_token = some a) (hr : res.refresh_token = none) :
    tokenLoop cfg now cur res provider stdin =
      ⟨.pyError (.keyError "refresh_token"), cur, [], 0⟩ := by
  unfold tokenLoop
  rw [hj, hs]
  simp [ha, hr]

/-! ## Claim theorems -/

/-- Claim C1, counterexample: a password-grant client with an expired
token and refresh token "RT0" whose refresh request is answered 400
issues exactly one request (the refresh itself), performs no subsequent
full-acquisition request, raises nothing, and returns with the token set
unchanged — contrary to the claimed single full-acquisition fallback and
`AuthenticationError`. -/
theorem refresh_failure_cex :
    updateAuth pwCfg staleTokens 5 [resp400] [] =
      ⟨.returned, staleTokens, [refreshPasswordReq pwCfg "RT0"], 0⟩ ∧
    (updateAuth pwCfg staleTokens 5 [resp400] []).requests.length = 1 := by decide

/-- Claim C1, amended: for a password-grant client with an expired token
and a non-empty refresh token, a refresh request answered with an error
status (400-599) makes `_update_auth` return silently — no fallback
full-acquisition request, no error, token set unchanged — and the
triggering call then proceeds against the resource API with the stale
token. -/
theorem refresh_failure_returns_silently (cfg : Config) (tokens : TokenSet) (now : Int)
    (res : TokenResponse) (rest : List TokenResponse) (stdin : List String)
    (apiRes : ApiResponse) (hg : cfg.grant_type = .password)
    (hexp : tokens.expires_at ≤ now) (hrt : tokens.refresh_token ≠ "")
    (hbad : 400 ≤ res.status) (hbad' : res.status < 600) :
    updateAuth cfg tokens now (res :: rest) stdin =
      ⟨.returned, tokens, [refreshPasswordReq cfg tokens.refresh_token], 0⟩ ∧
    (callModel cfg tokens now (res :: rest) stdin apiRes).2 =
      some (classifyResponse apiRes) := by
  have hok : ¬ responseOk res.status := by
    intro hc
    rcases hc with hlt | hge
    · omega
    · omega
  have hmain : updateAuth cfg tokens now (res :: rest) stdin =
      ⟨.returned, tokens, [refreshPasswordReq cfg tokens.refresh_token], 0⟩ := by
    rw [updateAuth_refresh_pw cfg tokens now (res :: rest) stdin hexp hrt hg,
        issueAndLoop_badStatus cfg now tokens _ res rest stdin hok]
  refine ⟨hmain, ?_⟩
  simp only [callModel]
  rw [hmain]

/-- Claim C1, witness for the amended theorem at a concrete input. -/
theorem refresh_failure_returns_silently_witness :
    pwCfg.grant_type = .password ∧ staleTokens.expires_at ≤ 5 ∧
    staleTokens.refresh_token ≠ "" ∧ 400 ≤ resp400.status ∧ resp400.status < 600 ∧
    (updateAuth pwCfg staleTokens 5 [resp400] [] =
       ⟨.returned, staleTokens, [refreshPasswordReq pwCfg staleTokens.refresh_token], 0⟩ ∧
     (callModel pwCfg staleTokens 5 [resp400] [] ⟨404, none, "nf"⟩).2 =
       some (classifyResponse ⟨404, none, "nf"⟩)) :=
  ⟨by decide, by decide, by decide, by decide, by decide,
   refresh_failure_returns_silently pwCfg staleTokens 5 resp400 [] [] ⟨404, none, "nf"⟩
     (by decide) (by decide) (by decide) (by decide) (by decide)⟩

/-- Claim C2 (confirmed): for every client whose token set has
`expires_at` strictly in the future, `call()` performs exactly zero
negotiation requests against the token endpoint, leaves the token set
unchanged, and proceeds to the resource API. -/
theorem valid_token_zero_negotiation (cfg : Config) (tokens : TokenSet) (now : Int)
    (provider : List TokenResponse) (stdin : List String) (apiRes : ApiResponse)
    (h : now < tokens.expires_at) :
    callModel cfg tokens now provider stdin apiRes =
      (⟨.returned, tokens, [], 0⟩, some (classifyResponse apiRes)) := by
  simp only [callModel]
  rw [updateAuth_fresh cfg tokens now provider stdin h]

/-- Claim C2, witness at a concrete input. -/
theorem valid_token_zero_negotiation_witness :
    (5 : Int) < (10 : Int) ∧
    callModel pwCfg ⟨"AT", "RT", 10⟩ 5 [] [] ⟨200, some "ok", "raw"⟩ =
      (⟨.returned, ⟨"AT", "RT", 10⟩, [], 0⟩,
       some (classifyResponse ⟨200, some "ok", "raw"⟩)) :=
  ⟨by decide,
   valid_token_zero_negotiation pwCfg ⟨"AT", "RT", 10⟩ 5 [] [] ⟨200, some "ok", "raw"⟩
     (by decide)⟩

/-- Claim C3 (code bug), evaluated at the failing input: a
client-credentials client with an expired token and non-empty refresh
token "RT0" raises `UnboundLocalError` on `client_creds` before issuing
any request (zero refresh-grant requests), while the same state under the
password grant issues exactly the one claimed refresh request. -/
theorem cc_refresh_unbound_client_creds :
    updateAuth ccCfg staleTokens 5 [resp200] [] =
      ⟨.pyError (.nameError "client_creds"), staleTokens, [], 0⟩ ∧
    updateAuth pwCfg staleTokens 5 [resp200] [] =
      ⟨.returned, ⟨"AT1", "RT1", 3605⟩, [refreshPasswordReq pwCfg "RT0"], 0⟩ := by decide

/-- Claim C4 (confirmed): for either grant kind, a configuration lacking
that grant's required secrets makes construction fail immediately (the
`assert` statements of `__init__`, the construction-time configuration
error of the spec), so no client value exists and no first call can
happen. -/
theorem missing_secrets_fail_at_construction (cfg : Config)
    (h : (cfg.grant_type = .client_credentials ∧
            (cfg.client_id = none ∨ cfg.client_secret = none)) ∨
         (cfg.grant_type = .password ∧
            (cfg.username = none ∨ cfg.password = none))) :
    clientInit cfg = .error .assertionError := by
  obtain ⟨bu, dbg, un, pw, ci, cs, rtc, gt⟩ := cfg
  rcases h with ⟨hg, hm | hm⟩ | ⟨hg, hm | hm⟩ <;> subst hg <;> subst hm
  · rfl
  · cases ci <;> rfl
  · rfl
  · cases un <;> rfl

/-- Claim C4, witness at a concrete input. -/
theorem missing_secrets_fail_at_construction_witness :
    ((badCfg.grant_type = .client_credentials ∧
        (badCfg.client_id = none ∨ badCfg.client_secret = none)) ∨
     (badCfg.grant_type = .password ∧
        (badCfg.username = none ∨ badCfg.password = none))) ∧
    clientInit badCfg = .error .assertionError :=
  ⟨by decide, missing_secrets_fail_at_construction badCfg (by decide)⟩

/-- Claim C5 (confirmed): the negotiation request a call issues (the
initial-acquisition or refresh request, always the first request of the
trace) is shaped exactly by the configured grant kind: client-credentials
requests carry `Authorization: Basic base64(client_id:client_secret)` and
a body holding only the grant type; password-grant requests carry no
Basic header and a body with username/password (initial) or the stored
refresh token (refresh). The two shapes are never mixed. -/
theorem negotiation_request_shapes (cfg : Config) (tokens : TokenSet) (now : Int)
    (provider : List TokenResponse) (stdin : List String) (req : TokenRequest)
    (h : (updateAuth cfg tokens now provider stdin).requests.head? = some req) :
    (cfg.grant_type = .client_credentials →
        req.basic_auth =
          some ("Basic " ++
            base64Encode (fstr cfg.client_id ++ ":" ++ fstr cfg.client_secret)) ∧
        req.body = [("grant_type", "client_credentials")]) ∧
    (cfg.grant_type = .password →
        req.basic_auth = none ∧
        ((tokens.refresh_token = "" ∧
            req.body = [("grant_type", "password"), ("username", fstr cfg.username),
                        ("password", fstr cfg.password)]) ∨
         (tokens.refresh_token ≠ "" ∧
            req.body = [("grant_type", "refresh_token"),
                        ("refresh_token", tokens.refresh_token)]))) := by
  by_cases hexp : tokens.expires_at ≤ now
  · by_cases hrt : tokens.refresh_token = ""
    · cases hg : cfg.grant_type with
      | client_credentials =>
        rw [updateAuth_initial_cc cfg tokens now provider stdin hexp hrt hg,
            issueAndLoop_head] at h
        injection h with h
        subst h
        exact ⟨fun _ => ⟨rfl, rfl⟩, fun hp => absurd hp (by decide)⟩
      | password =>
        rw [updateAuth_initial_pw cfg tokens now provider stdin hexp hrt hg,
            issueAndLoop_head] at h
        injection h with h
        subst h
        exact ⟨fun hp => absurd hp (by decide), fun _ => ⟨rfl, Or.inl ⟨hrt, rfl⟩⟩⟩
    · cases hg : cfg.grant_type with
      | client_credentials =>
        rw [updateAuth_refresh_cc cfg tokens now provider stdin hexp hrt hg] at h
        simp at h
      | password =>
        rw [updateAuth_refresh_pw cfg tokens now provider stdin hexp hrt hg,
            issueAndLoop_head] at h
        injection h with h
        subst h
        exact ⟨fun hp => absurd hp (by decide), fun _ => ⟨rfl, Or.inr ⟨hrt, rfl⟩⟩⟩
  · rw [updateAuth_fresh cfg tokens now provider stdin (not_le.mp hexp)] at h
    simp at h

/-- Claim C5, witness at a concrete client-credentials input. -/
theorem negotiation_request_shapes_witness :
    (updateAuth ccCfg sentinelTokens 5 [resp200] []).requests.head? =
      some (initialCcReq ccCfg) ∧
    ((ccCfg.grant_type = .client_credentials →
        (initialCcReq ccCfg).basic_auth =
          some ("Basic " ++
            base64Encode (fstr ccCfg.client_id ++ ":" ++ fstr ccCfg.client_secret)) ∧
        (initialCcReq ccCfg).body = [("grant_type", "client_credentials")]) ∧
     (ccCfg.grant_type = .password →
        (initialCcReq ccCfg).basic_auth = none ∧
        ((sentinelTokens.refresh_token = "" ∧
            (initialCcReq ccCfg).body =
              [("grant_type", "password"), ("username", fstr ccCfg.username),
               ("password", fstr ccCfg.password)]) ∨
         (sentinelTokens.refresh_token ≠ "" ∧
            (initialCcReq ccCfg).body =
              [("grant_type", "refresh_token"),
               ("refresh_token", sentinelTokens.refresh_token)])))) :=
  ⟨by decide,
   negotiation_request_shapes ccCfg sentinelTokens 5 [resp200] [] (initialCcReq ccCfg)
     (by decide)⟩

/-- Claim C6, counterexample: a 200 refresh response that carries
`access_token` and `expires_in` but no `refresh_token` key does not
retain the existing refresh token — the token update raises
`KeyError("refresh_token")` and the token set is left untouched. -/
theorem refresh_missing_rt_cex :
    updateAuth pwCfg staleTokens 5 [resp200NoRT] [] =
      ⟨.pyError (.keyError "refresh_token"), staleTokens,
       [refreshPasswordReq pwCfg "RT0"], 0⟩ := by decide

/-- Claim C6, amended: on a successful (HTTP 200) refresh response the
client updates `access_token` and sets `expires_at = now + expires_in`
exactly as reported — provided the response also carries a
`refresh_token` field; when the provider does not return one, the client
raises `KeyError` instead of retaining the existing refresh token. -/
theorem refresh_token_update_requires_field (cfg : Config) (tokens : TokenSet) (now : Int)
    (res : TokenResponse) (rest : List TokenResponse) (stdin : List String)
    (a : String) (e : Int) (hg : cfg.grant_type = .password)
    (hexp : tokens.expires_at ≤ now) (hrt : tokens.refresh_token ≠ "")
    (hs : res.status = 200) (hj : res.json_ok = true)
    (ha : res.access_token = some a) (he : res.expires_in = some e) :
    (∀ rt, res.refresh_token = some rt →
        updateAuth cfg tokens now (res :: rest) stdin =
          ⟨.returned, ⟨a, rt, now + e⟩,
           [refreshPasswordReq cfg tokens.refresh_token], 0⟩) ∧
    (res.refresh_token = none →
        updateAuth cfg tokens now (res :: rest) stdin =
          ⟨.pyError (.keyError "refresh_token"), tokens,
           [refreshPasswordReq cfg tokens.refresh_token], 0⟩) := by
  have hok : responseOk res.status := by
    rw [hs]
    left
    omega
  constructor
  · intro rt hr
    rw [updateAuth_refresh_pw cfg tokens now (res :: rest) stdin hexp hrt hg,
        issueAndLoop_okStatus cfg now tokens _ res rest stdin hok,
        tokenLoop_success cfg now tokens res rest stdin a rt e hj hs ha hr he]
  · intro hr
    rw [updateAuth_refresh_pw cfg tokens now (res :: rest) stdin hexp hrt hg,
        issueAndLoop_okStatus cfg now tokens _ res rest stdin hok,
        tokenLoop_missing_refresh cfg now tokens res rest stdin a hj hs ha hr]

/-- Claim C6, witness for the amended theorem at a concrete input (a
provider that does not rotate refresh tokens). -/
theorem refresh_token_update_requires_field_witness :
    pwCfg.grant_type = .password ∧ staleTokens.expires_at ≤ 5 ∧
    staleTokens.refresh_token ≠ "" ∧ resp200NoRT.status = 200 ∧
    resp200NoRT.json_ok = true ∧ resp200NoRT.access_token = some "AT1" ∧
    resp200NoRT.expires_in = some 3600 ∧
    ((∀ rt, resp200NoRT.refresh_token = some rt →
        updateAuth pwCfg staleTokens 5 [resp200NoRT] [] =
          ⟨.returned, ⟨"AT1", rt, 3605⟩,
           [refreshPasswordReq pwCfg staleTokens.refresh_token], 0⟩) ∧
     (resp200NoRT.refresh_token = none →
        updateAuth pwCfg staleTokens 5 [resp200NoRT] [] =
          ⟨.pyError (.keyError "refresh_token"), staleTokens,
           [refreshPasswordReq pwCfg staleTokens.refresh_token], 0⟩)) :=
  ⟨by decide, by decide, by decide, by decide, by decide, by decide, by decide,
   refresh_token_update_requires_field pwCfg staleTokens 5 resp200NoRT [] [] "AT1" 3600
     (by decide) (by decide) (by decide) (by decide) (by decide) (by decide) (by decide)⟩

/-- Claim C7, counterexample: the class-level `requests.Session` is one
shared object, so before any call instance B sees no Authorization
header, and after instance A attaches its token the header `Bearer AT_A`
is observable through instance B — contradicting "never observable
through the other". -/
theorem class_level_session_cex :
    List.lookup "Authorization" (sessionOf freshClassState exInstB).headers = none ∧
    List.lookup "Authorization"
      (sessionOf (attachAuth freshClassState exInstA) exInstB).headers =
      some "Bearer AT_A" := by decide

/-- Claim C7, amended: `tokens` and `_session` are class-level attributes
of `_NerisApiClient`. The token set an instance acquires is stored as an
instance-level field (so another instance's token view is unchanged), but
the HTTP session — and hence the Authorization header attached during a
call — is one shared object, observable through every other instance. -/
theorem class_level_session_sharing (cls : ClassState) (iA iB : InstanceState) :
    sessionOf (attachAuth cls iA) iB = sessionOf (attachAuth cls iA) iA ∧
    List.lookup "Authorization" (sessionOf (attachAuth cls iA) iB).headers =
      some ("Bearer " ++ (readTokens cls iA).access_token) ∧
    readTokens (attachAuth cls iA) iB = readTokens cls iB := by
  refine ⟨rfl, ?_, rfl⟩
  simp [sessionOf, attachAuth, headersUpdate, List.lookup]

/-- Claim C8 (confirmed): once a call obtains a resource-API response,
a non-2xx status never aborts the call: `raise_for_status`'s `HTTPError`
is caught and the call resolves to a value the caller can inspect, which
carries the parsed error body when the body is valid JSON and the raw
text otherwise. (When the auth step raises, no resource response exists,
so such calls are outside the claim's scope.) -/
theorem non2xx_resolves_to_result (cfg : Config) (tokens : TokenSet) (now : Int)
    (provider : List TokenResponse) (stdin : List String) (apiRes : ApiResponse)
    (hauth : (updateAuth cfg tokens now provider stdin).outcome = .returned)
    (_h2xx : ¬ (200 ≤ apiRes.status ∧ apiRes.status < 300)) :
    (callModel cfg tokens now provider stdin apiRes).2 = some (classifyResponse apiRes) ∧
    carriedBody (classifyResponse apiRes) = parseBody apiRes ∧
    (∀ v, apiRes.json = some v → carriedBody (classifyResponse apiRes) = .jsonVal v) ∧
    (apiRes.json = none → carriedBody (classifyResponse apiRes) = .textVal apiRes.text) := by
  refine ⟨?_, ?_, ?_, ?_⟩
  · simp only [callModel]
    rw [hauth]
  · unfold classifyResponse
    split <;> rfl
  · intro v hv
    unfold classifyResponse
    split <;> simp [carriedBody, parseBody, hv]
  · intro hv
    unfold classifyResponse
    split <;> simp [carriedBody, parseBody, hv]

/-- Claim C8, witness at a concrete input (valid token, 404 response with
a non-JSON body). -/
theorem non2xx_resolves_to_result_witness :
    (updateAuth pwCfg ⟨"AT", "RT", 10⟩ 5 [] []).outcome = .returned ∧
    ¬ (200 ≤ (404 : Nat) ∧ (404 : Nat) < 300) ∧
    ((callModel pwCfg ⟨"AT", "RT", 10⟩ 5 [] [] ⟨404, none, "nf"⟩).2 =
       some (classifyResponse ⟨404, none, "nf"⟩) ∧
     carriedBody (classifyResponse ⟨404, none, "nf"⟩) = parseBody ⟨404, none, "nf"⟩ ∧
     (∀ v, (⟨404, none, "nf"⟩ : ApiResponse).json = some v →
        carriedBody (classifyResponse ⟨404, none, "nf"⟩) = .jsonVal v) ∧
     ((⟨404, none, "nf"⟩ : ApiResponse).json = none →
        carriedBody (classifyResponse ⟨404, none, "nf"⟩) = .textVal "nf")) :=
  ⟨by decide, by decide,
   non2xx_resolves_to_result pwCfg ⟨"AT", "RT", 10⟩ 5 [] [] ⟨404, none, "nf"⟩
     (by decide) (by decide)⟩

/-- Claim C9, counterexample: on an accepted-challenge-required (202)
response the client reads the MFA code from the terminal itself
(`stdinReads = 1`) and completes the whole flow internally — no MFA
challenge value is ever surfaced to the caller and no
`submitChallengeResponse` operation exists. -/
theorem mfa_terminal_input_cex :
    updateAuth pwCfg sentinelTokens 5 [resp202, resp200] ["123456"] =
      ⟨.returned, ⟨"AT1", "RT1", 3605⟩,
       [initialPasswordReq pwCfg, mfaReq pwCfg "SMS_MFA" "sess1" "123456"], 1⟩ ∧
    (updateAuth pwCfg sentinelTokens 5 [resp202, resp200] ["123456"]).stdinReads = 1 := by
  decide

/-- Claim C9, amended: whenever the provider responds with the
accepted-challenge-required status (202), the client itself reads the
response code from terminal input — blocking when none is available — and
immediately resubmits `grant_type = challenge_name` with the username,
the provider's session token, and the code; the challenge is never
surfaced to the caller as a value. -/
theorem mfa_challenge_reads_terminal (cfg : Config) (now : Int) (cur : TokenSet)
    (res : TokenResponse) (provider : List TokenResponse) (ch sess : String)
    (hj : res.json_ok = true) (hs : res.status = 202)
    (hch : res.challenge_name = some ch) (hsess : res.session = some sess) :
    tokenLoop cfg now cur res provider [] = ⟨.blockedOnInput, cur, [], 0⟩ ∧
    ∀ code stdin2,
      1 ≤ (tokenLoop cfg now cur res provider (code :: stdin2)).stdinReads ∧
      (tokenLoop cfg now cur res provider (code :: stdin2)).requests.head? =
        some (mfaReq cfg ch sess code) := by
  constructor
  · unfold tokenLoop
    rw [hj, hs]
    simp [hch]
  · intro code stdin2
    cases provider with
    | nil =>
      constructor <;>
        · unfold tokenLoop
          rw [hj, hs]
          simp [hch, hsess]
    | cons r rest =>
      constructor <;>
        · unfold tokenLoop
          rw [hj, hs]
          simp [hch, hsess]

/-- Claim C9, witness for the amended theorem at a concrete input. -/
theorem mfa_challenge_reads_terminal_witness :
    resp202.json_ok = true ∧ resp202.status = 202 ∧
    resp202.challenge_name = some "SMS_MFA" ∧ resp202.session = some "sess1" ∧
    (tokenLoop pwCfg 5 staleTokens resp202 [resp200] [] =
       ⟨.blockedOnInput, staleTokens, [], 0⟩ ∧
     ∀ code stdin2,
       1 ≤ (tokenLoop pwCfg 5 staleTokens resp202 [resp200] (code :: stdin2)).stdinReads ∧
       (tokenLoop pwCfg 5 staleTokens resp202 [resp200] (code :: stdin2)).requests.head? =
         some (mfaReq pwCfg "SMS_MFA" "sess1" code)) :=
  ⟨by decide, by decide, by decide, by decide,
   mfa_challenge_reads_terminal pwCfg 5 staleTokens resp202 [resp200] "SMS_MFA" "sess1"
     (by decide) (by decide) (by decide) (by decide)⟩

/-- Claim C10 (confirmed): for every combination of arguments,
`patch_unit` raises `NameError` on `neris_id` while evaluating its URL
f-string — before `_call` is entered, hence before any HTTP request is
issued. -/
theorem patch_unit_unbound_neris_id (a b c d : String) :
    patch_unit a b c d = .error (.nameError "neris_id") ∧
    methodRequests (patch_unit a b c d) = [] := by
  constructor <;> rfl

end NerisApiClient
